import Mathlib

/-!
Shallow embedding of `verify_practice_debug.py` (repository `violin-app`).

The script drives a browser through a fixed interaction sequence:

* `__main__` launches a browser, opens a page, then inside `try ... finally
  browser.close()` runs a connection retry loop (30 attempts of `page.goto`,
  a bare `except:` that sleeps 1 second and retries, re-raising on the last
  attempt) and calls `verify_practice_mode`.
* `verify_practice_mode` performs: `page.goto`, click the "Practice" tab,
  wait for "Open G String", click "Start Practice", then a `try/except
  Exception` around the wait for "Play G3" (the caught error is printed),
  then `os.makedirs("verification", exist_ok=True)`,
  `page.screenshot(path="verification/practice_debug.png")` and a print.

Each externally fallible operation is modelled by an oracle field in `Env`
giving its outcome (`none` = success, `some e` = it raises `e`).  An
exception `e : Exn` carries `isException : Bool`: `true` for instances of
Python's `Exception`, `false` for `BaseException`-only raisable events such
as `KeyboardInterrupt` and `SystemExit`.  Observable side effects are
collected in an event trace; the filesystem is a set of directory names and
file paths.
-/

/-- A raisable Python event.  `isException` is `true` exactly when the value
is an instance of `Exception` (so it is caught by `except Exception`);
`false` models `BaseException`-only events such as `KeyboardInterrupt` and
`SystemExit`, which only a bare `except:` catches. -/
structure Exn where
  isException : Bool
  msg : String
  deriving DecidableEq

/-- Observable side effects of the script, in order of occurrence. -/
inductive Event where
  | print (s : String)
  | sleep (seconds : Nat)
  | mkdir (d : String)
  | screenshot (path : String) (fullPage : Bool)
  | browserClose
  deriving DecidableEq

/-- The filesystem as the script sees it: a set of existing directories and
a set of existing file paths. -/
structure FS where
  dirs : List String
  files : List String
  deriving DecidableEq

/-- Outcome oracle for every fallible external call in the script.
`connGoto i` is the outcome of the `page.goto` executed on retry-loop
attempt `i` (0-indexed); the remaining fields are the outcomes of the calls
in `verify_practice_mode`, in source order. -/
structure Env where
  connGoto : Nat → Option Exn
  verifyGoto : Option Exn
  tabClick : Option Exn
  openGWait : Option Exn
  startClick : Option Exn
  playG3Wait : Option Exn
  makedirsErr : Option Exn
  screenshotErr : Option Exn

/-- The fixed output path of the screenshot. -/
def screenshotPath : String := "verification/practice_debug.png"

/-- `os.makedirs(d, exist_ok=True)`: create the directory if absent; if it
already exists, do nothing and raise no error. -/
def makedirs (d : String) (fs : FS) : FS :=
  if d ∈ fs.dirs then fs else { fs with dirs := d :: fs.dirs }

/-- Writing a file: creates the path if absent, overwrites (leaving the
path present) if it already exists; never errors on an existing path. -/
def writeFile (p : String) (fs : FS) : FS :=
  if p ∈ fs.files then fs else { fs with files := p :: fs.files }

/-- Result of running `verify_practice_mode`: the exception it propagates
(if any), the filesystem afterwards, and the events it emitted. -/
structure VOut where
  exn : Option Exn
  fs : FS
  trace : List Event
  deriving DecidableEq

/-- The capture tail of `verify_practice_mode` (steps 6 of the script):
`os.makedirs("verification", exist_ok=True)` followed by
`page.screenshot(path="verification/practice_debug.png")` and the
confirmation print.  The Python call passes only `path`, so the Playwright
default `full_page=False` applies: the screenshot event records
`fullPage = false`.  `tr` is the trace accumulated before this point. -/
def captureStep (env : Env) (fs : FS) (tr : List Event) : VOut :=
  match env.makedirsErr with
  | some e => ⟨some e, fs, tr⟩
  | none =>
    let fs1 := makedirs "verification" fs
    match env.screenshotErr with
    | some e => ⟨some e, fs1, tr ++ [Event.mkdir "verification"]⟩
    | none =>
      ⟨none, writeFile screenshotPath fs1,
        tr ++ [Event.mkdir "verification",
               Event.screenshot screenshotPath false,
               Event.print "Saved verification/practice_debug.png"]⟩

/-- `verify_practice_mode(page)`: goto, click the "Practice" tab, wait for
"Open G String", click "Start Practice" — each of these propagates any
exception.  The wait for "Play G3" sits in `try ... except Exception as e:
print(...)`, so an exception from it is caught and printed exactly when it
is an instance of `Exception`; afterwards the capture step runs. -/
def verify_practice_mode (env : Env) (fs : FS) : VOut :=
  match env.verifyGoto with
  | some e => ⟨some e, fs, []⟩
  | none =>
    match env.tabClick with
    | some e => ⟨some e, fs, []⟩
    | none =>
      match env.openGWait with
      | some e => ⟨some e, fs, []⟩
      | none =>
        match env.startClick with
        | some e => ⟨some e, fs, []⟩
        | none =>
          match env.playG3Wait with
          | some e =>
            if e.isException then
              captureStep env fs
                [Event.print ("Error waiting for Play G3: " ++ e.msg)]
            else ⟨some e, fs, []⟩
          | none => captureStep env fs []

/-- The connection retry loop of `__main__`, from attempt `i` with `fuel`
iterations remaining (`fuel = 30 - i` at every call):

```
for i in range(max_retries):
    try:
        page.goto("http://localhost:3000")
        break
    except:
        if i == max_retries - 1:
            raise
        time.sleep(1)
```

The bare `except:` catches every raisable event, whatever its
`isException` flag.  Returns the propagated exception (if any) together
with the trace of sleeps.  Falling off the loop end (fuel exhausted)
continues without error, as in Python. -/
def connLoop (g : Nat → Option Exn) (m : Nat) : Nat → Nat → (Option Exn) × List Event
  | _, 0 => (none, [])
  | i, fuel + 1 =>
    match g i with
    | none => (none, [])
    | some e =>
      if i = m - 1 then (some e, [])
      else
        let r := connLoop g m (i + 1) fuel
        (r.1, Event.sleep 1 :: r.2)

/-- The whole connection phase: `max_retries = 30` attempts starting at 0. -/
def connectWithRetry (g : Nat → Option Exn) (m : Nat) : (Option Exn) × List Event :=
  connLoop g m 0 m

/-- Result of a whole run of the script. -/
structure RunResult where
  exn : Option Exn
  fs : FS
  trace : List Event
  deriving DecidableEq

/-- `__main__`: after launching the browser and creating the context and
page, the `try` block runs the connection retry loop and then
`verify_practice_mode`; the `finally` closes the browser on every exit
path, which the trace records as a final `browserClose` event. -/
def mainRun (env : Env) (fs : FS) : RunResult :=
  let c := connectWithRetry env.connGoto 30
  match c.1 with
  | some e => ⟨some e, fs, c.2 ++ [Event.browserClose]⟩
  | none =>
    let v := verify_practice_mode env fs
    ⟨v.exn, v.fs, c.2 ++ v.trace ++ [Event.browserClose]⟩

/-- Process exit code: 0 on normal completion, nonzero when an exception
propagates out of the script. -/
def exitCode (r : RunResult) : Nat :=
  match r.exn with
  | none => 0
  | some _ => 1

/-- An empty filesystem, used by concrete witnesses. -/
def fs0 : FS := ⟨[], []⟩

/-- An environment in which every external call succeeds. -/
def envOk : Env :=
  ⟨fun _ => none, none, none, none, none, none, none, none⟩

/-- The retry loop consults only attempts `i, i+1, ..., i+fuel-1`. -/
theorem connLoop_congr (g g' : Nat → Option Exn) (m : Nat) :
    ∀ fuel i, (∀ j, i ≤ j → j < i + fuel → g j = g' j) →
      connLoop g m i fuel = connLoop g' m i fuel := by
  intro fuel
  induction fuel with
  | zero => intro i _; rfl
  | succ f ih =>
    intro i h
    have hi : g i = g' i := h i (Nat.le_refl i) (by omega)
    simp only [connLoop, hi]
    cases g' i with
    | none => rfl
    | some e =>
      by_cases hlast : i = m - 1
      · simp [hlast]
      · have hrec := ih (i + 1) (fun j hj1 hj2 => h j (by omega) (by omega))
        simp [hlast, hrec]

/-- If the first `k` attempts (from `i`) fail and attempt `i + k` succeeds,
with `k < fuel`, the loop ends without error after exactly `k` one-second
sleeps. -/
theorem connLoop_success (g : Nat → Option Exn) (m : Nat) :
    ∀ k i fuel, i + fuel = m → k < fuel →
      (∀ j, j < k → (g (i + j)).isSome = true) → g (i + k) = none →
      connLoop g m i fuel = (none, List.replicate k (Event.sleep 1)) := by
  intro k
  induction k with
  | zero =>
    intro i fuel hm hk _ hsucc
    have hi : g i = none := by simpa using hsucc
    cases fuel with
    | zero => omega
    | succ f => simp [connLoop, hi]
  | succ k ih =>
    intro i fuel hm hk hfail hsucc
    obtain ⟨e, he⟩ := Option.isSome_iff_exists.mp (by simpa using hfail 0 (by omega))
    cases fuel with
    | zero => omega
    | succ f =>
      have hlast : ¬ i = m - 1 := by omega
      have hrec := ih (i + 1) f (by omega) (by omega)
        (fun j hj => by
          have := hfail (j + 1) (by omega)
          simpa [Nat.add_assoc, Nat.add_comm 1 j] using this)
        (by simpa [Nat.add_assoc, Nat.add_comm 1 k] using hsucc)
      simp [connLoop, he, hlast, hrec, List.replicate_succ]

/-- If every attempt from `i` up to `m - 1` fails, the loop re-raises the
exception of the last attempt, after `fuel - 1` sleeps. -/
theorem connLoop_allFail (g : Nat → Option Exn) (m : Nat) :
    ∀ fuel i, i + fuel = m → 0 < fuel →
      (∀ j, i ≤ j → j < m → (g j).isSome = true) →
      connLoop g m i fuel = (g (m - 1), List.replicate (fuel - 1) (Event.sleep 1)) := by
  intro fuel
  induction fuel with
  | zero => intro i _ h; omega
  | succ f ih =>
    intro i hm _ hfail
    obtain ⟨e, he⟩ := Option.isSome_iff_exists.mp (hfail i (Nat.le_refl i) (by omega))
    by_cases hlast : i = m - 1
    · have hf : f = 0 := by omega
      subst hf
      have : g (m - 1) = some e := hlast ▸ he
      simp [connLoop, he, hlast, this]
    · have hf : 0 < f := by omega
      have hrec := ih (i + 1) (by omega) hf
        (fun j hj1 hj2 => hfail j (by omega) hj2)
      have hrep : List.replicate f (Event.sleep 1)
          = Event.sleep 1 :: List.replicate (f - 1) (Event.sleep 1) := by
        rw [show f = f - 1 + 1 by omega]
        simp [List.replicate_succ]
      simp [connLoop, he, hlast, hrec, hrep]

/-- The loop propagates an exception iff every one of its attempts fails. -/
theorem connLoop_isSome (g : Nat → Option Exn) (m : Nat) :
    ∀ fuel i, i + fuel = m → 0 < fuel →
      (((connLoop g m i fuel).1.isSome = true) ↔
        ∀ j, i ≤ j → j < m → (g j).isSome = true) := by
  intro fuel
  induction fuel with
  | zero => intro i _ h; omega
  | succ f ih =>
    intro i hm _
    cases he : g i with
    | none =>
      simp only [connLoop, he]
      constructor
      · intro h; simp at h
      · intro h
        have := h i (Nat.le_refl i) (by omega)
        rw [he] at this
        simp at this
    | some e =>
      by_cases hlast : i = m - 1
      · subst hlast
        rw [show connLoop g m (m - 1) (f + 1) = (some e, []) by
              simp [connLoop, he]]
        constructor
        · intro _ j hj1 hj2
          rw [show j = m - 1 by omega, he]; rfl
        · intro _; rfl
      · have hf : 0 < f := by omega
        have hrec := ih (i + 1) (by omega) hf
        simp only [connLoop, he, if_neg hlast]
        rw [hrec]
        constructor
        · intro h j hj1 hj2
          rcases Nat.eq_or_lt_of_le hj1 with heq | hlt
          · rw [← heq, he]; rfl
          · exact h j hlt hj2
        · intro h j hj1 hj2
          exact h j (by omega) hj2

/-- After `makedirs d`, the directory `d` exists. -/
theorem makedirs_mem (d : String) (fs : FS) : d ∈ (makedirs d fs).dirs := by
  by_cases h : d ∈ fs.dirs <;> simp [makedirs, h]

/-- `makedirs` with `exist_ok=True` leaves an existing directory untouched
and raises no error. -/
theorem makedirs_of_mem {d : String} {fs : FS} (h : d ∈ fs.dirs) :
    makedirs d fs = fs := by
  simp [makedirs, h]

/-- `makedirs` does not touch files. -/
theorem makedirs_files (d : String) (fs : FS) :
    (makedirs d fs).files = fs.files := by
  by_cases h : d ∈ fs.dirs <;> simp [makedirs, h]

/-- After writing `p`, the path `p` exists. -/
theorem writeFile_mem (p : String) (fs : FS) : p ∈ (writeFile p fs).files := by
  by_cases h : p ∈ fs.files <;> simp [writeFile, h]

/-- Writing to an existing path overwrites it: the filesystem shape is
unchanged and no error is raised. -/
theorem writeFile_of_mem {p : String} {fs : FS} (h : p ∈ fs.files) :
    writeFile p fs = fs := by
  simp [writeFile, h]

/-- `writeFile` does not touch directories. -/
theorem writeFile_dirs (p : String) (fs : FS) : (writeFile p fs).dirs = fs.dirs := by
  by_cases h : p ∈ fs.files <;> simp [writeFile, h]

/-- If the very first `goto` succeeds, the connection phase ends at once
with no sleeps. -/
theorem connectWithRetry_first (g : Nat → Option Exn) (h : g 0 = none) :
    connectWithRetry g 30 = (none, []) := by
  have hs := connLoop_success g 30 0 0 30 rfl (by omega)
    (fun j hj => absurd hj (Nat.not_lt_zero j)) (by simpa using h)
  simpa [connectWithRetry] using hs

/-- A timeout raised by `expect(...).to_be_visible`, as an instance of
Python's `Exception`. -/
def exnTimeout : Exn := ⟨true, "Timeout 10000ms exceeded"⟩

/-- Environment for the witness of C1: everything succeeds except the wait
for "Play G3", which times out. -/
def envC1 : Env :=
  ⟨fun _ => none, none, none, none, none, some exnTimeout, none, none⟩

/-- Claim C1: if every step up to and including the "Start Practice" click
succeeds (and the capture operations succeed) but the wait for the text
"Play G3" fails within its timeout, the run does not abort: the exception
is caught at that single point, a message is printed, and execution
continues to the screenshot capture, printing the caught-error message
before the save confirmation; the browser is closed at the end. -/
theorem claim_C1 (env : Env) (fs : FS) (ctr : List Event) (e : Exn)
    (hc : connectWithRetry env.connGoto 30 = (none, ctr))
    (hgoto : env.verifyGoto = none) (htab : env.tabClick = none)
    (hopen : env.openGWait = none) (hstart : env.startClick = none)
    (hplay : env.playG3Wait = some e) (hexc : e.isException = true)
    (hmk : env.makedirsErr = none) (hshot : env.screenshotErr = none) :
    (mainRun env fs).exn = none ∧
    (mainRun env fs).trace =
      ctr ++ [Event.print ("Error waiting for Play G3: " ++ e.msg),
              Event.mkdir "verification",
              Event.screenshot screenshotPath false,
              Event.print "Saved verification/practice_debug.png",
              Event.browserClose] := by
  simp [mainRun, hc, verify_practice_mode, hgoto, htab, hopen, hstart, hplay, hexc,
        captureStep, hmk, hshot]

/-- Witness for C1 at a concrete environment. -/
theorem claim_C1_witness :
    (mainRun envC1 fs0).exn = none ∧
    (mainRun envC1 fs0).trace =
      [] ++ [Event.print ("Error waiting for Play G3: " ++ exnTimeout.msg),
             Event.mkdir "verification",
             Event.screenshot screenshotPath false,
             Event.print "Saved verification/practice_debug.png",
             Event.browserClose] :=
  claim_C1 envC1 fs0 [] exnTimeout (connectWithRetry_first _ rfl)
    rfl rfl rfl rfl rfl rfl rfl rfl

/-- An exception from a click on a missing control. -/
def exnTab : Exn := ⟨true, "tab Practice not found"⟩

/-- Environment for the witness of C2: the tab click raises. -/
def envC2 : Env :=
  ⟨fun _ => none, none, some exnTab, none, none, none, none, none⟩

/-- Claim C2: if the tab selection, the wait for "Open G String", or the
"Start Practice" click raises, the exception propagates uncaught, the run
terminates with the filesystem untouched (no screenshot written), and only
the browser teardown still executes. -/
theorem claim_C2 (env : Env) (fs : FS) (ctr : List Event) (e : Exn)
    (hc : connectWithRetry env.connGoto 30 = (none, ctr))
    (hgoto : env.verifyGoto = none)
    (hsteps : env.tabClick = some e ∨
      (env.tabClick = none ∧ env.openGWait = some e) ∨
      (env.tabClick = none ∧ env.openGWait = none ∧ env.startClick = some e)) :
    (mainRun env fs).exn = some e ∧ (mainRun env fs).fs = fs ∧
    (mainRun env fs).trace = ctr ++ [Event.browserClose] := by
  rcases hsteps with h | ⟨h1, h2⟩ | ⟨h1, h2, h3⟩
  · simp [mainRun, hc, verify_practice_mode, hgoto, h]
  · simp [mainRun, hc, verify_practice_mode, hgoto, h1, h2]
  · simp [mainRun, hc, verify_practice_mode, hgoto, h1, h2, h3]

/-- Witness for C2 at a concrete environment. -/
theorem claim_C2_witness :
    (mainRun envC2 fs0).exn = some exnTab ∧ (mainRun envC2 fs0).fs = fs0 ∧
    (mainRun envC2 fs0).trace = [] ++ [Event.browserClose] :=
  claim_C2 envC2 fs0 [] exnTab (connectWithRetry_first _ rfl) rfl (Or.inl rfl)

/-- Claim C7: on every exit path of the run — normal completion,
connection-retry exhaustion, or any exception raised during the
interaction sequence — the browser teardown is the last event before the
run ends; the browser session is never left open. -/
theorem claim_C7 (env : Env) (fs : FS) :
    ∃ tr, (mainRun env fs).trace = tr ++ [Event.browserClose] := by
  rcases hc : connectWithRetry env.connGoto 30 with ⟨oe, ctr⟩
  cases oe with
  | some e => exact ⟨ctr, by simp [mainRun, hc]⟩
  | none =>
    exact ⟨ctr ++ (verify_practice_mode env fs).trace, by simp [mainRun, hc]⟩

/-- Environment for the witness of C7: a mid-sequence failure (the wait for
"Open G String" raises), after which the browser is still closed. -/
def envC7 : Env :=
  ⟨fun _ => none, none, none, some ⟨true, "Open G String not visible"⟩,
   none, none, none, none⟩

/-- Witness for C7 at a concrete environment. -/
theorem claim_C7_witness :
    ∃ tr, (mainRun envC7 fs0).trace = tr ++ [Event.browserClose] :=
  claim_C7 envC7 fs0

/-- Claim C3: the connection phase attempts the load at most 30 times (its
outcome depends only on the first 30 attempt outcomes), sleeps 1 second
between a failed attempt and the next; if the first N-1 attempts fail and
attempt N succeeds (N ≤ 30) the phase ends without error after N-1 sleeps,
and the phase propagates an exception — aborting the run with the
filesystem untouched — if and only if all 30 attempts fail. -/
theorem claim_C3 (env : Env) (fs : FS) :
    (∀ N, 1 ≤ N → N ≤ 30 →
      (∀ i, i < N - 1 → (env.connGoto i).isSome = true) →
      env.connGoto (N - 1) = none →
      connectWithRetry env.connGoto 30
        = (none, List.replicate (N - 1) (Event.sleep 1))) ∧
    ((connectWithRetry env.connGoto 30).1.isSome = true ↔
      ∀ i, i < 30 → (env.connGoto i).isSome = true) ∧
    ((∀ i, i < 30 → (env.connGoto i).isSome = true) →
      (mainRun env fs).exn.isSome = true ∧ (mainRun env fs).fs = fs) ∧
    (∀ g' : Nat → Option Exn, (∀ i, i < 30 → env.connGoto i = g' i) →
      connectWithRetry env.connGoto 30 = connectWithRetry g' 30) := by
  refine ⟨?_, ?_, ?_, ?_⟩
  · intro N h1 h30 hfail hsucc
    unfold connectWithRetry
    exact connLoop_success env.connGoto 30 (N - 1) 0 30 rfl (by omega)
      (fun j hj => by simpa using hfail j hj) (by simpa using hsucc)
  · unfold connectWithRetry
    rw [connLoop_isSome env.connGoto 30 30 0 rfl (by omega)]
    constructor
    · intro h j hj; exact h j (Nat.zero_le j) hj
    · intro h j _ hj; exact h j hj
  · intro hfail
    have hall := connLoop_allFail env.connGoto 30 30 0 rfl (by omega)
      (fun j _ hj => hfail j hj)
    obtain ⟨e, he⟩ := Option.isSome_iff_exists.mp (hfail 29 (by omega))
    have he' : env.connGoto (30 - 1) = some e := he
    have hc : connectWithRetry env.connGoto 30
        = (some e, List.replicate 29 (Event.sleep 1)) := by
      unfold connectWithRetry
      rw [hall, he']
    simp [mainRun, hc]
  · intro g' hg
    unfold connectWithRetry
    exact connLoop_congr env.connGoto g' 30 30 0
      (fun j _ hj => hg j (by omega))

/-- An exception from a refused connection. -/
def exnConn : Exn := ⟨true, "connection refused"⟩

/-- Environment for the witness of C3: the first two connection attempts
fail and the third succeeds. -/
def envC3 : Env :=
  ⟨fun i => if i < 2 then some exnConn else none,
   none, none, none, none, none, none, none⟩

/-- Witness for C3: with failures on attempts 1 and 2 and success on
attempt 3, the connection phase ends without error after two sleeps. -/
theorem claim_C3_witness :
    connectWithRetry envC3.connGoto 30
      = (none, List.replicate 2 (Event.sleep 1)) :=
  (claim_C3 envC3 fs0).1 3 (by decide) (by decide)
    (fun i hi => by
      have h2 : i < 2 := by omega
      simp [envC3, h2])
    (by decide)

/-- A `BaseException`-only raisable event: not an instance of `Exception`,
so only a bare `except:` catches it. -/
def exnKeyboard : Exn := ⟨false, "KeyboardInterrupt"⟩

/-- Claim C10: the retry loop's bare `except` swallows every raisable
event — `isException` true or false alike, so in particular
`BaseException`-only events such as `KeyboardInterrupt` — sleeping 1
second and retrying, except on the 30th attempt (index 29), where the
event is re-raised and propagates as the loop's result. -/
theorem claim_C10 (g : Nat → Option Exn) :
    (∀ k, k + 1 < 30 →
      (∀ j, j < k + 1 → ∃ e, g j = some e ∧ e.isException = false) →
      g (k + 1) = none →
      connectWithRetry g 30 = (none, List.replicate (k + 1) (Event.sleep 1))) ∧
    ((∀ i, i < 30 → (g i).isSome = true) → (connectWithRetry g 30).1 = g 29) := by
  constructor
  · intro k hk hfail hsucc
    unfold connectWithRetry
    exact connLoop_success g 30 (k + 1) 0 30 rfl (by omega)
      (fun j hj => by
        obtain ⟨e, he, _⟩ := hfail j hj
        simp [he])
      (by simpa using hsucc)
  · intro hfail
    unfold connectWithRetry
    rw [connLoop_allFail g 30 30 0 rfl (by omega) (fun j _ hj => hfail j hj)]

/-- Environment oracle for the witness of C10: attempt 1 raises
`KeyboardInterrupt` (not an `Exception`), attempt 2 succeeds. -/
def gC10 : Nat → Option Exn := fun i => if i = 0 then some exnKeyboard else none

/-- Witness for C10: the `KeyboardInterrupt` on attempt 1 is swallowed, the
loop sleeps once and the next attempt succeeds. -/
theorem claim_C10_witness :
    connectWithRetry gC10 30 = (none, List.replicate 1 (Event.sleep 1)) :=
  (claim_C10 gC10).1 0 (by decide)
    (fun j hj => ⟨exnKeyboard, by
      have hj0 : j = 0 := by omega
      simp [gC10, hj0], rfl⟩)
    (by decide)

/-- Exception for the C4 counterexample: the tab click raises. -/
def exnTab4 : Exn := ⟨true, "tab Practice not found"⟩

/-- Environment for the C4 counterexample: connection succeeds at once but
the "Practice" tab click raises. -/
def envC4 : Env :=
  ⟨fun _ => none, none, some exnTab4, none, none, none, none, none⟩

/-- Claim C4 is false as stated: here is a run (the tab click raises) that
ends — the trace finishes with the browser teardown — with no screenshot
artifact on disk. -/
theorem claim_C4_counterexample :
    (mainRun envC4 fs0).fs.files = [] ∧
    (mainRun envC4 fs0).exn = some exnTab4 ∧
    (mainRun envC4 fs0).trace = [Event.browserClose] := by
  refine ⟨rfl, rfl, rfl⟩

/-- Claim C4 (amended): for every run in which the connection phase and all
fail-fast interaction steps (in-function goto, tab selection, content wait,
start click) and the capture operations succeed, a screenshot artifact is
left on disk at the fixed output path when the run ends, whether the
listening-state wait succeeds or fails with an `Exception`. -/
theorem claim_C4_amended (env : Env) (fs : FS)
    (hconn : (connectWithRetry env.connGoto 30).1 = none)
    (hgoto : env.verifyGoto = none) (htab : env.tabClick = none)
    (hopen : env.openGWait = none) (hstart : env.startClick = none)
    (hplay : env.playG3Wait = none ∨
      ∃ e, env.playG3Wait = some e ∧ e.isException = true)
    (hmk : env.makedirsErr = none) (hshot : env.screenshotErr = none) :
    screenshotPath ∈ (mainRun env fs).fs.files := by
  rcases hc : connectWithRetry env.connGoto 30 with ⟨oe, ctr⟩
  rw [hc] at hconn
  subst hconn
  rcases hplay with h | ⟨e, h, hexc⟩
  · simp [mainRun, hc, verify_practice_mode, hgoto, htab, hopen, hstart, h,
          captureStep, hmk, hshot, writeFile_mem]
  · simp [mainRun, hc, verify_practice_mode, hgoto, htab, hopen, hstart, h, hexc,
          captureStep, hmk, hshot, writeFile_mem]

/-- Environment for the witness of C4 (amended): everything succeeds except
the listening-state wait, which times out with an `Exception`. -/
def envC4w : Env :=
  ⟨fun _ => none, none, none, none, none,
   some ⟨true, "Timeout 10000ms exceeded"⟩, none, none⟩

/-- Witness for C4 (amended) at a concrete environment. -/
theorem claim_C4_witness :
    screenshotPath ∈ (mainRun envC4w fs0).fs.files :=
  claim_C4_amended envC4w fs0
    (by rw [connectWithRetry_first envC4w.connGoto rfl])
    rfl rfl rfl rfl (Or.inr ⟨⟨true, "Timeout 10000ms exceeded"⟩, rfl, rfl⟩)
    rfl rfl

/-- Exception for the C5 counterexample: the tab click raises. -/
def exnTab5 : Exn := ⟨true, "tab Practice not found"⟩

/-- Environment for the C5 counterexample: connection succeeds on the very
first attempt, yet the run exits abnormally because the tab click raises. -/
def envC5 : Env :=
  ⟨fun _ => none, none, some exnTab5, none, none, none, none, none⟩

/-- Claim C5 is false as stated: a run whose connection succeeds on attempt
one (so the retries are certainly not exhausted) still exits with a nonzero
code, because the tab click raised. -/
theorem claim_C5_counterexample :
    envC5.connGoto 0 = none ∧ exitCode (mainRun envC5 fs0) = 1 := by
  refine ⟨rfl, rfl⟩

/-- Claim C5 (amended): the exit code is 0 exactly on normal completion (no
exception propagates), and is nonzero exactly when either the connection
retries are exhausted or `verify_practice_mode` propagates an exception
(an uncaught failure of navigation, tab selection, content wait, start
click, a non-`Exception` raise at the listening wait, or a capture
operation). -/
theorem claim_C5_amended (env : Env) (fs : FS) :
    (exitCode (mainRun env fs) = 0 ↔ (mainRun env fs).exn = none) ∧
    (exitCode (mainRun env fs) ≠ 0 ↔
      ((connectWithRetry env.connGoto 30).1.isSome = true ∨
        ((connectWithRetry env.connGoto 30).1 = none ∧
          (verify_practice_mode env fs).exn.isSome = true))) := by
  rcases hc : connectWithRetry env.connGoto 30 with ⟨oe, ctr⟩
  cases oe with
  | some e => simp [mainRun, exitCode, hc]
  | none =>
    cases hv : (verify_practice_mode env fs).exn with
    | some e => simp [mainRun, exitCode, hc, hv]
    | none => simp [mainRun, exitCode, hc, hv]

/-- Environment for the witness of C5 (amended): every call succeeds. -/
def envC5w : Env :=
  ⟨fun _ => none, none, none, none, none, none, none, none⟩

/-- Witness for C5 (amended) at a concrete environment. -/
theorem claim_C5_witness :
    (exitCode (mainRun envC5w fs0) = 0 ↔ (mainRun envC5w fs0).exn = none) ∧
    (exitCode (mainRun envC5w fs0) ≠ 0 ↔
      ((connectWithRetry envC5w.connGoto 30).1.isSome = true ∨
        ((connectWithRetry envC5w.connGoto 30).1 = none ∧
          (verify_practice_mode envC5w fs0).exn.isSome = true))) :=
  claim_C5_amended envC5w fs0

/-- Environment for the C6 counterexample: every call succeeds (the happy
path). -/
def envC6 : Env :=
  ⟨fun _ => none, none, none, none, none, none, none, none⟩

/-- Claim C6 is false in one respect: the screenshot the capture step
writes is not a full-page screenshot.  The source calls
`page.screenshot(path=...)` without `full_page=True`, so the Playwright
default `full_page=False` applies: on the happy path the emitted capture
event carries `fullPage = false`, and no `fullPage = true` capture occurs. -/
theorem claim_C6_counterexample :
    Event.screenshot screenshotPath false ∈ (mainRun envC6 fs0).trace ∧
    Event.screenshot screenshotPath true ∉ (mainRun envC6 fs0).trace := by
  refine ⟨by decide, by decide⟩

/-- Claim C6 (amended): whenever the capture step is reached and its
operations succeed, it first ensures the directory "verification" exists —
creating it if absent, and changing nothing (raising no error) if already
present — and then writes a screenshot (with the library default, not
full-page) to the fixed path "verification/practice_debug.png"; the mkdir
precedes the screenshot in the trace. -/
theorem claim_C6_amended (env : Env) (fs : FS) (ctr : List Event)
    (hc : connectWithRetry env.connGoto 30 = (none, ctr))
    (hgoto : env.verifyGoto = none) (htab : env.tabClick = none)
    (hopen : env.openGWait = none) (hstart : env.startClick = none)
    (hplay : env.playG3Wait = none)
    (hmk : env.makedirsErr = none) (hshot : env.screenshotErr = none) :
    ("verification" ∈ (mainRun env fs).fs.dirs ∧
      screenshotPath ∈ (mainRun env fs).fs.files) ∧
    (mainRun env fs).trace =
      ctr ++ [Event.mkdir "verification",
              Event.screenshot screenshotPath false,
              Event.print "Saved verification/practice_debug.png",
              Event.browserClose] ∧
    (∀ f : FS, "verification" ∈ (makedirs "verification" f).dirs) ∧
    (∀ f : FS, "verification" ∈ f.dirs → makedirs "verification" f = f) := by
  refine ⟨⟨?_, ?_⟩, ?_, fun f => makedirs_mem _ f, fun f hf => makedirs_of_mem hf⟩
  · have hdirs : (mainRun env fs).fs.dirs
        = (makedirs "verification" fs).dirs := by
      simp [mainRun, hc, verify_practice_mode, hgoto, htab, hopen, hstart, hplay,
            captureStep, hmk, hshot, writeFile_dirs]
    rw [hdirs]
    exact makedirs_mem _ fs
  · simp [mainRun, hc, verify_practice_mode, hgoto, htab, hopen, hstart, hplay,
          captureStep, hmk, hshot, writeFile_mem]
  · simp [mainRun, hc, verify_practice_mode, hgoto, htab, hopen, hstart, hplay,
          captureStep, hmk, hshot]

/-- Environment for the witness of C6 (amended): every call succeeds. -/
def envC6w : Env :=
  ⟨fun _ => none, none, none, none, none, none, none, none⟩

/-- Witness for C6 (amended) at a concrete environment. -/
theorem claim_C6_witness :
    ("verification" ∈ (mainRun envC6w fs0).fs.dirs ∧
      screenshotPath ∈ (mainRun envC6w fs0).fs.files) ∧
    (mainRun envC6w fs0).trace =
      [] ++ [Event.mkdir "verification",
             Event.screenshot screenshotPath false,
             Event.print "Saved verification/practice_debug.png",
             Event.browserClose] ∧
    (∀ f : FS, "verification" ∈ (makedirs "verification" f).dirs) ∧
    (∀ f : FS, "verification" ∈ f.dirs → makedirs "verification" f = f) :=
  claim_C6_amended envC6w fs0 []
    (connectWithRetry_first _ rfl) rfl rfl rfl rfl rfl rfl rfl

/-- Claim C8: running the script twice in succession is safe for the
filesystem: starting from any filesystem — in particular whether or not
"verification/" or the screenshot file already exists — the run completes,
leaves the screenshot at the fixed path, creates the directory if it was
absent, and a second identical run also completes (no error on the
existing path) and leaves the filesystem exactly as the first run left it:
the capture step is idempotent on the filesystem state it produces. -/
theorem claim_C8 (env : Env) (fs : FS)
    (hconn : env.connGoto 0 = none)
    (hgoto : env.verifyGoto = none) (htab : env.tabClick = none)
    (hopen : env.openGWait = none) (hstart : env.startClick = none)
    (hplay : env.playG3Wait = none)
    (hmk : env.makedirsErr = none) (hshot : env.screenshotErr = none) :
    ((mainRun env ((mainRun env fs).fs)).exn = none ∧
      (mainRun env ((mainRun env fs).fs)).fs = (mainRun env fs).fs) ∧
    (mainRun env fs).exn = none ∧
    screenshotPath ∈ (mainRun env fs).fs.files ∧
    "verification" ∈ (mainRun env fs).fs.dirs := by
  have hc := connectWithRetry_first env.connGoto hconn
  have hfs : ∀ f : FS, (mainRun env f).fs
      = writeFile screenshotPath (makedirs "verification" f) := by
    intro f
    simp [mainRun, hc, verify_practice_mode, hgoto, htab, hopen, hstart, hplay,
          captureStep, hmk, hshot]
  have hexn : ∀ f : FS, (mainRun env f).exn = none := by
    intro f
    simp [mainRun, hc, verify_practice_mode, hgoto, htab, hopen, hstart, hplay,
          captureStep, hmk, hshot]
  have hmem : screenshotPath ∈ (mainRun env fs).fs.files := by
    rw [hfs fs]; exact writeFile_mem _ _
  have hdir : "verification" ∈ (mainRun env fs).fs.dirs := by
    rw [hfs fs, writeFile_dirs]; exact makedirs_mem _ _
  refine ⟨⟨hexn _, ?_⟩, hexn _, hmem, hdir⟩
  rw [hfs ((mainRun env fs).fs), makedirs_of_mem hdir, writeFile_of_mem hmem]

/-- Environment for the witness of C8: every call succeeds. -/
def envC8 : Env :=
  ⟨fun _ => none, none, none, none, none, none, none, none⟩

/-- A starting filesystem for the witness of C8 in which both the
directory and the screenshot file already exist. -/
def fsC8 : FS := ⟨["verification"], [screenshotPath]⟩

/-- Witness for C8 at a concrete environment, starting from a filesystem
where the screenshot path already exists. -/
theorem claim_C8_witness :
    ((mainRun envC8 ((mainRun envC8 fsC8).fs)).exn = none ∧
      (mainRun envC8 ((mainRun envC8 fsC8).fs)).fs = (mainRun envC8 fsC8).fs) ∧
    (mainRun envC8 fsC8).exn = none ∧
    screenshotPath ∈ (mainRun envC8 fsC8).fs.files ∧
    "verification" ∈ (mainRun envC8 fsC8).fs.dirs :=
  claim_C8 envC8 fsC8 rfl rfl rfl rfl rfl rfl rfl rfl

/-- Environment for the witness of C9: the "Play G3" wait raises a strict
mode locator error — an `Exception`, but not a timeout. -/
def envC9 : Env :=
  ⟨fun _ => none, none, none, none, none,
   some ⟨true, "strict mode violation: locator resolved to 2 elements"⟩,
   none, none⟩

/-- Claim C9: the `except Exception` around the "Play G3" wait catches
every exception whose type is `Exception` — locator and page errors as
well as timeouts: for an arbitrary such exception the run does not
propagate it, the caught-error message is printed, and the screenshot
capture follows. -/
theorem claim_C9 (env : Env) (fs : FS) (e : Exn)
    (hgoto : env.verifyGoto = none) (htab : env.tabClick = none)
    (hopen : env.openGWait = none) (hstart : env.startClick = none)
    (hplay : env.playG3Wait = some e) (hexc : e.isException = true)
    (hmk : env.makedirsErr = none) (hshot : env.screenshotErr = none) :
    (verify_practice_mode env fs).exn = none ∧
    (verify_practice_mode env fs).trace =
      [Event.print ("Error waiting for Play G3: " ++ e.msg),
       Event.mkdir "verification",
       Event.screenshot screenshotPath false,
       Event.print "Saved verification/practice_debug.png"] ∧
    screenshotPath ∈ (verify_practice_mode env fs).fs.files := by
  refine ⟨?_, ?_, ?_⟩
  · simp [verify_practice_mode, hgoto, htab, hopen, hstart, hplay, hexc,
          captureStep, hmk, hshot]
  · simp [verify_practice_mode, hgoto, htab, hopen, hstart, hplay, hexc,
          captureStep, hmk, hshot]
  · simp [verify_practice_mode, hgoto, htab, hopen, hstart, hplay, hexc,
          captureStep, hmk, hshot, writeFile_mem]

/-- Witness for C9 at a concrete environment with a non-timeout
`Exception`. -/
theorem claim_C9_witness :
    (verify_practice_mode envC9 fs0).exn = none ∧
    (verify_practice_mode envC9 fs0).trace =
      [Event.print ("Error waiting for Play G3: "
         ++ Exn.msg ⟨true, "strict mode violation: locator resolved to 2 elements"⟩),
       Event.mkdir "verification",
       Event.screenshot screenshotPath false,
       Event.print "Saved verification/practice_debug.png"] ∧
    screenshotPath ∈ (verify_practice_mode envC9 fs0).fs.files :=
  claim_C9 envC9 fs0 ⟨true, "strict mode violation: locator resolved to 2 elements"⟩
    rfl rfl rfl rfl rfl rfl rfl rfl
